import Mathlib

/-!
Verification of the posting engine of a double-entry bookkeeping ledger
(journal-entry and customer-invoice posting controllers).

Monetary values (Postgres DECIMAL(18,2), handled with exact decimal
arithmetic in the source) are modelled as integers counting cents, so all
sums and comparisons are exact, as in the source. Record ids (cuid strings
in the store) are modelled as naturals; dates are modelled by their
calendar fields, of which the controllers only read the year
(getFullYear). Timestamps stamped with the wall clock (postedAt) are
passed in as an explicit parameter.
-/

namespace Ledger

inductive EntryStatus
  | DRAFT
  | POSTED
deriving DecidableEq, Repr

inductive InvoiceStatus
  | DRAFT
  | POSTED
  | PAID
  | CANCELLED
deriving DecidableEq, Repr

inductive AccountType
  | ASSET
  | LIABILITY
  | EQUITY
  | INCOME
  | EXPENSE
deriving DecidableEq, Repr

/-- String form of an entry status, as the TS enum serializes it. -/
def EntryStatus.toName : EntryStatus → String
  | .DRAFT => "DRAFT"
  | .POSTED => "POSTED"

/-- String form of an invoice status, as the TS enum serializes it. -/
def InvoiceStatus.toName : InvoiceStatus → String
  | .DRAFT => "DRAFT"
  | .POSTED => "POSTED"
  | .PAID => "PAID"
  | .CANCELLED => "CANCELLED"

/-- A calendar date; the controllers only ever read the year
(`date.getFullYear()`). -/
structure SimpleDate where
  year : Nat
  month : Nat
  day : Nat
deriving DecidableEq, Repr

structure Company where
  id : Nat
  name : String
  baseCurrency : String
  invoiceNextNumber : Nat
deriving DecidableEq, Repr

structure Account where
  id : Nat
  companyId : Nat
  code : String
  name : String
  type : AccountType
deriving DecidableEq, Repr

structure Journal where
  id : Nat
  companyId : Nat
  code : String
  name : String
  nextNumber : Nat
deriving DecidableEq, Repr

structure JournalEntry where
  id : Nat
  companyId : Nat
  journalId : Nat
  date : SimpleDate
  number : Option String
  status : EntryStatus
  memo : Option String
  postedAt : Option Nat
deriving DecidableEq, Repr

/-- A journal line; `debit` and `credit` are cents. The store's surrogate
line id is never read by the controllers and is not modelled. -/
structure JournalLine where
  entryId : Nat
  accountId : Nat
  partnerId : Option Nat
  label : Option String
  debit : Int
  credit : Int
deriving DecidableEq, Repr

structure CustomerInvoice where
  id : Nat
  companyId : Nat
  partnerId : Nat
  invoiceDate : SimpleDate
  dueDate : Option SimpleDate
  number : Option String
  status : InvoiceStatus
  memo : Option String
  currency : String
  totalAmount : Int
  journalEntryId : Option Nat
  postedAt : Option Nat
deriving DecidableEq, Repr

structure InvoiceLine where
  invoiceId : Nat
  description : String
  quantity : Int
  unitPrice : Int
  lineTotal : Int
  incomeAccountId : Nat
deriving DecidableEq, Repr

/-- The relational store the controllers read and write. `nextId` is the
id the store will hand to the next created row. -/
structure Store where
  companies : List Company
  accounts : List Account
  journals : List Journal
  entries : List JournalEntry
  journalLines : List JournalLine
  invoices : List CustomerInvoice
  invoiceLines : List InvoiceLine
  nextId : Nat
deriving DecidableEq, Repr

/-- Errors of the controllers, tagged by the HTTP status they are sent
with: notFound 404, badRequest 400, conflict 409, internal 500. -/
inductive ApiError
  | notFound (msg : String)
  | badRequest (msg : String)
  | conflict (msg : String)
  | internal (msg : String)
deriving DecidableEq, Repr

def ApiError.statusCode : ApiError → Nat
  | .notFound _ => 404
  | .badRequest _ => 400
  | .conflict _ => 409
  | .internal _ => 500

/-- A controller call: the (possibly updated) store, and the response. -/
abbrev ApiResult (α : Type) := Store × Except ApiError α

-- Store lookups (prisma findUnique / findFirst / filtered findMany).

def findEntry (s : Store) (id : Nat) : Option JournalEntry :=
  s.entries.find? (fun e => e.id == id)

def entryLines (s : Store) (entryId : Nat) : List JournalLine :=
  s.journalLines.filter (fun l => l.entryId == entryId)

def findJournalById (s : Store) (id : Nat) : Option Journal :=
  s.journals.find? (fun j => j.id == id)

def findJournalByCode (s : Store) (companyId : Nat) (code : String) : Option Journal :=
  s.journals.find? (fun j => j.companyId == companyId && j.code == code)

def findCompany (s : Store) (id : Nat) : Option Company :=
  s.companies.find? (fun c => c.id == id)

def findAccountByCode (s : Store) (companyId : Nat) (code : String) : Option Account :=
  s.accounts.find? (fun a => a.companyId == companyId && a.code == code)

def findInvoice (s : Store) (id : Nat) : Option CustomerInvoice :=
  s.invoices.find? (fun i => i.id == id)

def invoiceLinesOf (s : Store) (invoiceId : Nat) : List InvoiceLine :=
  s.invoiceLines.filter (fun l => l.invoiceId == invoiceId)

-- Decimal-safe totals (the source folds Prisma.Decimal additions).

def sumDebit (ls : List JournalLine) : Int :=
  ls.foldl (fun acc l => acc + l.debit) 0

def sumCredit (ls : List JournalLine) : Int :=
  ls.foldl (fun acc l => acc + l.credit) 0

def sumLineTotal (ls : List InvoiceLine) : Int :=
  ls.foldl (fun acc l => acc + l.lineTotal) 0

/-- `String(n).padStart(4, "0")`. -/
def padStart4 (s : String) : String :=
  if s.length >= 4 then s
  else String.mk (List.replicate (4 - s.length) '0') ++ s

/-- Helper to format a journal entry number, "<JOURNAL_CODE>/<YEAR>/<0001>". -/
def formatJournalEntryNumber (journalCode : String) (year : Nat) (sequence : Nat) : String :=
  journalCode ++ "/" ++ toString year ++ "/" ++ padStart4 (toString sequence)

/-- Format invoice number: INV/YYYY/NNNN. -/
def formatInvoiceNumber (year : Nat) (sequence : Nat) : String :=
  "INV/" ++ toString year ++ "/" ++ padStart4 (toString sequence)

/--
postJournalEntry (journal entries controller): fetch the entry with its
lines, require DRAFT, require at least 2 lines, require total debit equal
to total credit, then in one transaction re-fetch the journal, assign the
formatted number, set status POSTED, stamp postedAt, and increment the
journal's nextNumber. Any error path leaves the store untouched.
-/
def postJournalEntry (s : Store) (id : Nat) (now : Nat) : ApiResult JournalEntry :=
  match findEntry s id with
  | none =>
      (s, .error (.notFound ("Journal entry with id " ++ toString id ++ " not found")))
  | some entry =>
      if entry.status ≠ EntryStatus.DRAFT then
        (s, .error (.conflict ("Journal entry is already posted (status: " ++ entry.status.toName ++ ")")))
      else
        let lines := entryLines s id
        if lines.length < 2 then
          (s, .error (.badRequest "Journal entry must have at least 2 lines"))
        else
          let totalDebit := sumDebit lines
          let totalCredit := sumCredit lines
          if totalDebit ≠ totalCredit then
            (s, .error (.badRequest ("Journal entry is unbalanced. Debit total: " ++ toString totalDebit ++ ", Credit total: " ++ toString totalCredit)))
          else
            let year := entry.date.year
            match findJournalById s entry.journalId with
            | none =>
                -- findUniqueOrThrow aborts the transaction; caught as a 500.
                (s, .error (.internal "Failed to post journal entry"))
            | some journal =>
                let entryNumber := formatJournalEntryNumber journal.code year journal.nextNumber
                let postedEntry : JournalEntry :=
                  { entry with number := some entryNumber, status := .POSTED, postedAt := some now }
                let s2 : Store :=
                  { s with
                    entries := s.entries.map (fun e => if e.id == id then postedEntry else e),
                    journals := s.journals.map (fun j =>
                      if j.id == journal.id then { j with nextNumber := j.nextNumber + 1 } else j) }
                (s2, .ok postedEntry)

-- Case-insensitive substring search, as in the Prisma name filter
-- { contains: "Receivable", mode: "insensitive" }.

def charsStartWith : List Char → List Char → Bool
  | [], _ => true
  | _ :: _, [] => false
  | a :: as, b :: bs => a == b && charsStartWith as bs

def charsContain (needle : List Char) : List Char → Bool
  | [] => charsStartWith needle []
  | c :: rest => charsStartWith needle (c :: rest) || charsContain needle rest

/-- Does `name` contain "Receivable", case-insensitively? -/
def nameHasReceivable (name : String) : Bool :=
  charsContain ("receivable".toList) (name.toList.map Char.toLower)

/-- The common AR account codes tried in order of preference. -/
def commonARCodes : List String := ["1200", "110000", "12000", "1100"]

/--
Find Accounts Receivable account for a company: try the common codes in
order, keeping the first match whose type is ASSET; otherwise fall back to
the first ASSET account whose name contains "Receivable"
(case-insensitive).
-/
def findAccountsReceivableAccount (s : Store) (companyId : Nat) : Option Account :=
  match commonARCodes.findSome? (fun code =>
      match findAccountByCode s companyId code with
      | some account => if account.type == AccountType.ASSET then some account else none
      | none => none) with
  | some account => some account
  | none =>
      s.accounts.find? (fun a =>
        a.companyId == companyId && a.type == AccountType.ASSET && nameHasReceivable a.name)

/-- The response body of a successful invoice post: the updated invoice
and the synthesized journal entry's id and number. -/
structure PostInvoiceResult where
  invoice : CustomerInvoice
  journalEntryId : Nat
  journalEntryNumber : Option String
deriving DecidableEq, Repr

/--
postCustomerInvoice (customer invoices controller): fetch the invoice
with its lines, require DRAFT, at least one line, positive total, the
company's "SAL" journal and an AR account; then in one transaction
re-fetch the company, format the invoice number from the company's
invoiceNextNumber, require invoice.totalAmount equal to the recomputed
sum of line totals, create the journal entry (status POSTED, number null)
with a debit line on AR and one credit line per invoice line, update the
invoice (POSTED, number, postedAt, journalEntryId) and increment the
company's invoiceNextNumber. The thrown imbalance error is caught and
returned as a 400; any other transaction failure as a 500; every error
path leaves the store untouched.
-/
def postCustomerInvoice (s : Store) (id : Nat) (now : Nat) : ApiResult PostInvoiceResult :=
  match findInvoice s id with
  | none =>
      (s, .error (.notFound ("Customer invoice with id " ++ toString id ++ " not found")))
  | some invoice =>
      if invoice.status ≠ InvoiceStatus.DRAFT then
        (s, .error (.badRequest ("Invoice cannot be posted. Current status: " ++ invoice.status.toName ++ ". Only DRAFT invoices can be posted.")))
      else
        let lines := invoiceLinesOf s id
        if lines.length == 0 then
          (s, .error (.badRequest "Invoice must have at least one line item to be posted"))
        else if invoice.totalAmount ≤ 0 then
          (s, .error (.badRequest "Invoice total amount must be greater than 0"))
        else
          match findJournalByCode s invoice.companyId "SAL" with
          | none =>
              (s, .error (.notFound "Sales Journal (code: SAL) not found. Please ensure the Sales Journal is set up for this company."))
          | some salesJournal =>
              match findAccountsReceivableAccount s invoice.companyId with
              | none =>
                  (s, .error (.notFound "Accounts Receivable account not found. Please ensure an Accounts Receivable (ASSET) account is set up for this company."))
              | some arAccount =>
                  match findCompany s invoice.companyId with
                  | none =>
                      -- findUniqueOrThrow aborts the transaction; caught as a 500.
                      (s, .error (.internal "Failed to post customer invoice"))
                  | some company =>
                      let year := invoice.invoiceDate.year
                      let invoiceNumber := formatInvoiceNumber year company.invoiceNextNumber
                      let totalDebit := invoice.totalAmount
                      let totalCredit := sumLineTotal lines
                      if totalDebit ≠ totalCredit then
                        (s, .error (.badRequest ("Journal entry is unbalanced. Debit: " ++ toString totalDebit ++ ", Credit: " ++ toString totalCredit)))
                      else
                        let entryId := s.nextId
                        let newEntry : JournalEntry :=
                          { id := entryId
                            companyId := invoice.companyId
                            journalId := salesJournal.id
                            date := invoice.invoiceDate
                            number := none  -- "Will be assigned when journal entry is posted"
                            status := .POSTED
                            memo := some (match invoice.memo with
                              | some m => if m == "" then "Invoice " ++ invoiceNumber else m
                              | none => "Invoice " ++ invoiceNumber)
                            postedAt := some now }
                        let arLine : JournalLine :=
                          { entryId := entryId
                            accountId := arAccount.id
                            partnerId := some invoice.partnerId
                            label := some ("Invoice " ++ invoiceNumber)
                            debit := invoice.totalAmount
                            credit := 0 }
                        let creditLines : List JournalLine := lines.map (fun line =>
                          { entryId := entryId
                            accountId := line.incomeAccountId
                            partnerId := some invoice.partnerId
                            label := some line.description
                            debit := 0
                            credit := line.lineTotal })
                        let updatedInvoice : CustomerInvoice :=
                          { invoice with
                            status := .POSTED
                            number := some invoiceNumber
                            postedAt := some now
                            journalEntryId := some entryId }
                        let s2 : Store :=
                          { s with
                            entries := s.entries ++ [newEntry],
                            journalLines := s.journalLines ++ (arLine :: creditLines),
                            invoices := s.invoices.map (fun i => if i.id == id then updatedInvoice else i),
                            companies := s.companies.map (fun c =>
                              if c.id == invoice.companyId then { c with invoiceNextNumber := c.invoiceNextNumber + 1 } else c),
                            nextId := s.nextId + 1 }
                        (s2, .ok { invoice := updatedInvoice
                                   journalEntryId := entryId
                                   journalEntryNumber := newEntry.number })

/-- A line of the createJournalEntry request body. Fields the request may
omit (undefined / wrong runtime type) are Options; `none` and, for
strings, `some ""` are the falsy inputs the source rejects as missing. -/
structure JournalLineInput where
  accountCode : Option String
  label : Option String
  debit : Option Int
  credit : Option Int
deriving DecidableEq, Repr

/-- The createJournalEntry request body. The date string's YYYY-MM-DD
shape check is presentation-level parsing; the body carries the parsed
date. `lines := none` models a body whose lines field is not an array. -/
structure CreateJournalEntryBody where
  companyId : Option Nat
  journalCode : Option String
  date : SimpleDate
  memo : Option String
  lines : Option (List JournalLineInput)
deriving DecidableEq, Repr

/-- Validation errors pushed for one line, in source order. JS compares
`undefined > 0` as false, hence the `getD 0` in the both-sides check. -/
def validateLine (i : Nat) (line : JournalLineInput) : List String :=
  (if line.accountCode == none || line.accountCode == some "" then
    ["lines[" ++ toString i ++ "].accountCode is required"] else [])
  ++ (match line.debit with
      | none => ["lines[" ++ toString i ++ "].debit is required and must be a number"]
      | some d => if d < 0 then ["lines[" ++ toString i ++ "].debit must be >= 0"] else [])
  ++ (match line.credit with
      | none => ["lines[" ++ toString i ++ "].credit is required and must be a number"]
      | some c => if c < 0 then ["lines[" ++ toString i ++ "].credit must be >= 0"] else [])
  ++ (if line.debit.getD 0 > 0 && line.credit.getD 0 > 0 then
        ["lines[" ++ toString i ++ "] cannot have both debit and credit > 0"] else [])

/-- All body-level validation errors of createJournalEntry, in source
order. -/
def validateJournalEntryBody (body : CreateJournalEntryBody) : List String :=
  (if body.journalCode == none || body.journalCode == some "" then
    ["journalCode is required"] else [])
  ++ (match body.lines with
      | none => ["lines is required and must be an array"]
      | some ls =>
          (if ls.length < 2 then ["lines must contain at least 2 entries"] else [])
          ++ (ls.enum.map (fun p => validateLine p.1 p.2)).flatten)

/--
createJournalEntry (journal entries controller): validate the body
(collecting all errors, answered as one 400), resolve the company (falling
back to the first company by creation order), the journal by
(companyId, journalCode), and every line's account code (missing codes
aggregated into one 404), then persist the entry as DRAFT with number null
together with its lines. Every error path leaves the store untouched.
-/
def createJournalEntry (s : Store) (body : CreateJournalEntryBody) : ApiResult JournalEntry :=
  let errors := validateJournalEntryBody body
  match body.lines with
  | none => (s, .error (.badRequest (String.intercalate "; " errors)))
  | some ls =>
      if errors ≠ [] then
        (s, .error (.badRequest (String.intercalate "; " errors)))
      else
        match (match body.companyId with
               | some c => some c
               | none => s.companies.head?.map Company.id) with
        | none => (s, .error (.notFound "No company found. Please seed the database first."))
        | some finalCompanyId =>
            match findCompany s finalCompanyId with
            | none => (s, .error (.notFound ("Company with id " ++ toString finalCompanyId ++ " not found")))
            | some _company =>
                let journalCode := body.journalCode.getD ""
                match findJournalByCode s finalCompanyId journalCode with
                | none => (s, .error (.notFound ("Journal with code \x22" ++ journalCode ++ "\x22 not found for company")))
                | some journal =>
                    let accountCodes := ls.map (fun l => l.accountCode.getD "")
                    let missingCodes := accountCodes.filter
                      (fun c => (findAccountByCode s finalCompanyId c).isNone)
                    if missingCodes ≠ [] then
                      (s, .error (.notFound ("Account(s) not found: " ++ String.intercalate ", " missingCodes)))
                    else
                      let entryId := s.nextId
                      let newEntry : JournalEntry :=
                        { id := entryId
                          companyId := finalCompanyId
                          journalId := journal.id
                          date := body.date
                          number := none  -- DRAFT entries have no number
                          status := .DRAFT
                          memo := match body.memo with
                            | some m => if m == "" then none else some m
                            | none => none
                          postedAt := none }
                      let newLines : List JournalLine := ls.map (fun line =>
                        { entryId := entryId
                          accountId := ((findAccountByCode s finalCompanyId (line.accountCode.getD "")).map Account.id).getD 0
                          partnerId := none
                          label := match line.label with
                            | some lb => if lb == "" then none else some lb
                            | none => none
                          debit := line.debit.getD 0
                          credit := line.credit.getD 0 })
                      let s2 : Store :=
                        { s with
                          entries := s.entries ++ [newEntry],
                          journalLines := s.journalLines ++ newLines,
                          nextId := s.nextId + 1 }
                      (s2, .ok newEntry)

-- Concrete fixture data, used to exercise the operations at explicit
-- inputs: one company with a cash account, an income account, an AR
-- account, a GEN and a SAL journal, one balanced DRAFT entry (id 30) and
-- one DRAFT invoice (id 40) with a single 2 x 50.00 line.

def accCash : Account :=
  { id := 10, companyId := 1, code := "1000", name := "Cash", type := .ASSET }

def accIncome : Account :=
  { id := 11, companyId := 1, code := "4000", name := "Sales Revenue", type := .INCOME }

def accAR : Account :=
  { id := 12, companyId := 1, code := "1200", name := "Accounts Receivable", type := .ASSET }

def jnlGEN : Journal :=
  { id := 20, companyId := 1, code := "GEN", name := "General Journal", nextNumber := 1 }

def jnlSAL : Journal :=
  { id := 21, companyId := 1, code := "SAL", name := "Sales Journal", nextNumber := 1 }

def draftEntry : JournalEntry :=
  { id := 30, companyId := 1, journalId := 20, date := ⟨2026, 1, 15⟩,
    number := none, status := .DRAFT, memo := none, postedAt := none }

def draftEntryLines : List JournalLine :=
  [ { entryId := 30, accountId := 10, partnerId := none, label := none, debit := 10000, credit := 0 },
    { entryId := 30, accountId := 11, partnerId := none, label := none, debit := 0, credit := 10000 } ]

def draftInvoice : CustomerInvoice :=
  { id := 40, companyId := 1, partnerId := 50, invoiceDate := ⟨2026, 2, 1⟩,
    dueDate := none, number := none, status := .DRAFT, memo := none,
    currency := "USD", totalAmount := 10000, journalEntryId := none, postedAt := none }

def draftInvoiceLines : List InvoiceLine :=
  [ { invoiceId := 40, description := "Widget", quantity := 200, unitPrice := 5000,
      lineTotal := 10000, incomeAccountId := 11 } ]

def baseStore : Store :=
  { companies := [{ id := 1, name := "Default Company", baseCurrency := "USD", invoiceNextNumber := 1 }],
    accounts := [accCash, accIncome, accAR],
    journals := [jnlGEN, jnlSAL],
    entries := [draftEntry],
    journalLines := draftEntryLines,
    invoices := [draftInvoice],
    invoiceLines := draftInvoiceLines,
    nextId := 100 }

/-- Well-formedness of a reachable store: the store's next fresh id is
larger than every id already referenced, as a relational store's id
generator guarantees. -/
def Store.freshIds (s : Store) : Bool :=
  s.entries.all (fun e => decide (e.id < s.nextId)) &&
  s.journalLines.all (fun l => decide (l.entryId < s.nextId)) &&
  s.invoices.all (fun i => decide (i.id < s.nextId)) &&
  s.invoiceLines.all (fun l => decide (l.invoiceId < s.nextId))

/--
The AR resolution strategy as the spec words it: try a fixed ordered list
of conventional account codes and take the first whose account exists
with type ASSET; when no coded candidate resolves, fall back to a
case-insensitive name search for the substring "Receivable" among ASSET
accounts. Stated independently of the source function, to be compared
with `findAccountsReceivableAccount`.
-/
def arAccountResolutionSpec (s : Store) (companyId : Nat) : Option Account :=
  (commonARCodes.findSome? (fun code =>
      (findAccountByCode s companyId code).bind
        (fun a => if a.type = AccountType.ASSET then some a else none))).orElse
    (fun _ => s.accounts.find? (fun a =>
      a.companyId == companyId && a.type == AccountType.ASSET && nameHasReceivable a.name))

/-- The conditions on one line under which `validateLine` pushes no
error: account code present and non-empty, debit and credit present and
non-negative, not both positive. -/
def lineValid (line : JournalLineInput) : Bool :=
  !(line.accountCode == none || line.accountCode == some "") &&
  (match line.debit with | none => false | some d => decide (0 ≤ d)) &&
  (match line.credit with | none => false | some c => decide (0 ≤ c)) &&
  !(line.debit.getD 0 > 0 && line.credit.getD 0 > 0)

-- Derived fixture states and bodies used at concrete inputs.

/-- The store after successfully posting the fixture invoice. -/
def invoicePostState : Store := (postCustomerInvoice baseStore 40 999).1

/-- baseStore with the fixture invoice already POSTED. -/
def storePostedInvoice : Store :=
  { baseStore with invoices := [{ draftInvoice with status := .POSTED, number := some "INV/2026/0001" }] }

/-- baseStore with the fixture entry already POSTED. -/
def storePostedEntry : Store :=
  { baseStore with entries := [{ draftEntry with status := .POSTED, number := some "GEN/2026/0001" }] }

/-- baseStore without any account that the AR resolution can find. -/
def storeNoAR : Store :=
  { baseStore with accounts := [accCash, accIncome] }

/-- The fixture entry as the successful post at time 999 returns it. -/
def postedEntry30 : JournalEntry :=
  { draftEntry with number := some "GEN/2026/0001", status := .POSTED, postedAt := some 999 }

/-- The fixture invoice as the successful post at time 999 returns it. -/
def postedInvoice40 : CustomerInvoice :=
  { draftInvoice with
    status := .POSTED
    number := some "INV/2026/0001"
    postedAt := some 999
    journalEntryId := some 100 }

/-- The response of successfully posting the fixture invoice. -/
def invoicePostResult : PostInvoiceResult :=
  { invoice := postedInvoice40, journalEntryId := 100, journalEntryNumber := none }

/-- A createJournalEntry body whose two lines each have debit 0 and
credit 0. -/
def bodyZeroZero : CreateJournalEntryBody :=
  { companyId := some 1
    journalCode := some "GEN"
    date := ⟨2026, 3, 1⟩
    memo := none
    lines := some
      [ { accountCode := some "1000", label := none, debit := some 0, credit := some 0 },
        { accountCode := some "4000", label := none, debit := some 0, credit := some 0 } ] }

/-- A well-formed createJournalEntry body with one balanced debit/credit
line pair. -/
def bodyBalanced : CreateJournalEntryBody :=
  { companyId := some 1
    journalCode := some "GEN"
    date := ⟨2026, 3, 1⟩
    memo := none
    lines := some
      [ { accountCode := some "1000", label := none, debit := some 10000, credit := some 0 },
        { accountCode := some "4000", label := none, debit := some 0, credit := some 10000 } ] }

/-- A createJournalEntry body whose first line has both debit and credit
positive. -/
def bodyBothPositive : CreateJournalEntryBody :=
  { companyId := some 1
    journalCode := some "GEN"
    date := ⟨2026, 3, 1⟩
    memo := none
    lines := some
      [ { accountCode := some "1000", label := none, debit := some 100, credit := some 100 },
        { accountCode := some "4000", label := none, debit := some 0, credit := some 0 } ] }

-- Generic list lemmas used below.

theorem foldl_add_eq_sum {α : Type} (f : α → Int) (l : List α) (a : Int) :
    l.foldl (fun acc x => acc + f x) a = a + (l.map f).sum := by
  induction l generalizing a with
  | nil => simp
  | cons x xs ih => simp [List.foldl, ih (a + f x)]; ring

theorem sumDebit_eq_sum (ls : List JournalLine) :
    sumDebit ls = (ls.map JournalLine.debit).sum := by
  simpa using foldl_add_eq_sum JournalLine.debit ls 0

theorem sumCredit_eq_sum (ls : List JournalLine) :
    sumCredit ls = (ls.map JournalLine.credit).sum := by
  simpa using foldl_add_eq_sum JournalLine.credit ls 0

theorem sumLineTotal_eq_sum (ls : List InvoiceLine) :
    sumLineTotal ls = (ls.map InvoiceLine.lineTotal).sum := by
  simpa using foldl_add_eq_sum InvoiceLine.lineTotal ls 0

theorem sumDebit_cons (x : JournalLine) (l : List JournalLine) :
    sumDebit (x :: l) = x.debit + sumDebit l := by
  simp [sumDebit_eq_sum]

theorem sumCredit_cons (x : JournalLine) (l : List JournalLine) :
    sumCredit (x :: l) = x.credit + sumCredit l := by
  simp [sumCredit_eq_sum]

theorem sumLineTotal_cons (x : InvoiceLine) (l : List InvoiceLine) :
    sumLineTotal (x :: l) = x.lineTotal + sumLineTotal l := by
  simp [sumLineTotal_eq_sum]

theorem sumDebit_map_zero (lines : List InvoiceLine) (f : InvoiceLine → JournalLine)
    (hf : ∀ line, (f line).debit = 0) : sumDebit (lines.map f) = 0 := by
  induction lines with
  | nil => rfl
  | cons x xs ih => rw [List.map_cons, sumDebit_cons, hf, ih]; ring

theorem sumCredit_map_total (lines : List InvoiceLine) (f : InvoiceLine → JournalLine)
    (hf : ∀ line, (f line).credit = line.lineTotal) :
    sumCredit (lines.map f) = sumLineTotal lines := by
  induction lines with
  | nil => rfl
  | cons x xs ih => rw [List.map_cons, sumCredit_cons, hf, ih, sumLineTotal_cons]

/-- Mapping an update over exactly the elements a predicate selects keeps
the first hit of `find?` in place, provided the update preserves the
predicate. -/
theorem find?_map_ite {α : Type} (q : α → Bool) (f : α → α) (l : List α) (x : α)
    (h : l.find? q = some x) (hpres : ∀ y, q (f y) = q y) :
    (l.map (fun y => if q y then f y else y)).find? q = some (f x) := by
  induction l with
  | nil => simp at h
  | cons y ys ih =>
      by_cases hy : q y = true
      · rw [List.find?_cons_of_pos _ hy] at h
        obtain rfl : y = x := by simpa using h
        simp [List.find?_cons_of_pos, hy, hpres]
      · have hy' : q y = false := by simpa using hy
        rw [List.find?_cons_of_neg _ (by simp [hy'])] at h
        have := ih h
        simpa [hy', List.find?_cons_of_neg] using this

/-- Inversion of a successful postJournalEntry: every validation passed,
and the result store and entry have exactly the shape the transaction
writes. -/
theorem postJournalEntry_ok_inv {s : Store} {id now : Nat} {s' : Store} {e : JournalEntry}
    (h : postJournalEntry s id now = (s', Except.ok e)) :
    ∃ entry journal,
      findEntry s id = some entry ∧
      entry.id = id ∧
      entry.status = EntryStatus.DRAFT ∧
      2 ≤ (entryLines s id).length ∧
      sumDebit (entryLines s id) = sumCredit (entryLines s id) ∧
      findJournalById s entry.journalId = some journal ∧
      e = { entry with
              number := some (formatJournalEntryNumber journal.code entry.date.year journal.nextNumber),
              status := .POSTED,
              postedAt := some now } ∧
      s' = { s with
              entries := s.entries.map (fun x => if x.id == id then e else x),
              journals := s.journals.map (fun j =>
                if j.id == journal.id then { j with nextNumber := j.nextNumber + 1 } else j) } := by
  unfold postJournalEntry at h
  cases hfe : findEntry s id with
  | none => rw [hfe] at h; simp at h
  | some entry =>
      rw [hfe] at h
      simp only at h
      have hid : entry.id = id := by
        have := List.find?_some hfe
        simpa using this
      by_cases hst : entry.status = EntryStatus.DRAFT
      · rw [if_neg (by simp [hst])] at h
        by_cases hlen : (entryLines s id).length < 2
        · rw [if_pos hlen] at h; simp at h
        · rw [if_neg hlen] at h
          by_cases hbal : sumDebit (entryLines s id) = sumCredit (entryLines s id)
          · rw [if_neg (by simp [hbal])] at h
            cases hfj : findJournalById s entry.journalId with
            | none => rw [hfj] at h; simp at h
            | some journal =>
                rw [hfj] at h
                simp only [Prod.mk.injEq, Except.ok.injEq] at h
                obtain ⟨hs', he⟩ := h
                refine ⟨entry, journal, rfl, hid, hst, Nat.le_of_not_lt hlen, hbal, hfj, he.symm, ?_⟩
                rw [← hs', ← he]
          · rw [if_pos (by simp [hbal])] at h; simp at h
      · rw [if_pos (by simp [hst])] at h; simp at h

/-- Inversion of a successful postCustomerInvoice: every validation
passed, and the result store and response have exactly the shape the
transaction writes. -/
theorem postCustomerInvoice_ok_inv {s : Store} {id now : Nat} {s' : Store} {r : PostInvoiceResult}
    (h : postCustomerInvoice s id now = (s', Except.ok r)) :
    ∃ invoice salesJournal arAccount company,
      findInvoice s id = some invoice ∧
      invoice.id = id ∧
      invoice.status = InvoiceStatus.DRAFT ∧
      invoiceLinesOf s id ≠ [] ∧
      0 < invoice.totalAmount ∧
      findJournalByCode s invoice.companyId "SAL" = some salesJournal ∧
      findAccountsReceivableAccount s invoice.companyId = some arAccount ∧
      findCompany s invoice.companyId = some company ∧
      invoice.totalAmount = sumLineTotal (invoiceLinesOf s id) ∧
      r.journalEntryId = s.nextId ∧
      r.journalEntryNumber = none ∧
      r.invoice = { invoice with
                      status := .POSTED,
                      number := some (formatInvoiceNumber invoice.invoiceDate.year company.invoiceNextNumber),
                      postedAt := some now,
                      journalEntryId := some s.nextId } ∧
      (∃ newEntry : JournalEntry,
         newEntry.id = s.nextId ∧ newEntry.status = .POSTED ∧ newEntry.number = none ∧
         newEntry.journalId = salesJournal.id ∧ newEntry.companyId = invoice.companyId ∧
         newEntry.date = invoice.invoiceDate ∧ newEntry.postedAt = some now ∧
         s' = { s with
                 entries := s.entries ++ [newEntry],
                 journalLines := s.journalLines ++
                   ({ entryId := s.nextId, accountId := arAccount.id, partnerId := some invoice.partnerId,
                      label := some ("Invoice " ++ formatInvoiceNumber invoice.invoiceDate.year company.invoiceNextNumber),
                      debit := invoice.totalAmount, credit := 0 } ::
                    (invoiceLinesOf s id).map (fun line =>
                      { entryId := s.nextId, accountId := line.incomeAccountId,
                        partnerId := some invoice.partnerId, label := some line.description,
                        debit := 0, credit := line.lineTotal })),
                 invoices := s.invoices.map (fun i => if i.id == id then r.invoice else i),
                 companies := s.companies.map (fun c =>
                   if c.id == invoice.companyId then { c with invoiceNextNumber := c.invoiceNextNumber + 1 } else c),
                 nextId := s.nextId + 1 }) := by
  simp only [postCustomerInvoice] at h
  split at h
  · simp at h
  · rename_i invoice hfi
    have hid : invoice.id = id := by
      have := List.find?_some hfi
      simpa using this
    split at h
    · simp at h
    · rename_i hst'
      have hst : invoice.status = InvoiceStatus.DRAFT := not_not.mp hst'
      split at h
      · simp at h
      · rename_i hlen'
        have hlen : invoiceLinesOf s id ≠ [] := by
          intro hc
          exact hlen' (by simp [hc])
        split at h
        · simp at h
        · rename_i hpos'
          have hpos : 0 < invoice.totalAmount := lt_of_not_le hpos'
          split at h
          · simp at h
          · rename_i salesJournal hsal
            split at h
            · simp at h
            · rename_i arAccount har
              split at h
              · simp at h
              · rename_i company hco
                split at h
                · simp at h
                · rename_i hbal'
                  have hbal : invoice.totalAmount = sumLineTotal (invoiceLinesOf s id) :=
                    not_not.mp hbal'
                  simp only [Prod.mk.injEq, Except.ok.injEq] at h
                  obtain ⟨hs', hr⟩ := h
                  refine ⟨invoice, salesJournal, arAccount, company, hfi, hid, hst,
                    hlen, hpos, hsal, har, hco, hbal, ?_, ?_, ?_, ?_⟩
                  · rw [← hr]
                  · rw [← hr]
                  · rw [← hr]
                  · refine ⟨{ id := s.nextId
                              companyId := invoice.companyId
                              journalId := salesJournal.id
                              date := invoice.invoiceDate
                              number := none
                              status := .POSTED
                              memo := some (match invoice.memo with
                                | some m => if m == "" then
                                    "Invoice " ++ formatInvoiceNumber invoice.invoiceDate.year company.invoiceNextNumber
                                  else m
                                | none => "Invoice " ++ formatInvoiceNumber invoice.invoiceDate.year company.invoiceNextNumber)
                              postedAt := some now },
                            rfl, rfl, rfl, rfl, rfl, rfl, rfl, ?_⟩
                    rw [← hs', ← hr]

/-- A failed postJournalEntry leaves the store exactly as it was. -/
theorem postJournalEntry_error_frame {s s' : Store} {id now : Nat} {err : ApiError}
    (h : postJournalEntry s id now = (s', Except.error err)) : s' = s := by
  simp only [postJournalEntry] at h
  repeat' split at h
  all_goals injection h with h1 h2
  all_goals try cases h2
  all_goals exact h1.symm

/-- A failed postCustomerInvoice leaves the store exactly as it was. -/
theorem postCustomerInvoice_error_frame {s s' : Store} {id now : Nat} {err : ApiError}
    (h : postCustomerInvoice s id now = (s', Except.error err)) : s' = s := by
  simp only [postCustomerInvoice] at h
  repeat' split at h
  all_goals injection h with h1 h2
  all_goals try cases h2
  all_goals exact h1.symm

/-- A failed createJournalEntry leaves the store exactly as it was. -/
theorem createJournalEntry_error_frame {s s' : Store} {body : CreateJournalEntryBody} {err : ApiError}
    (h : createJournalEntry s body = (s', Except.error err)) : s' = s := by
  simp only [createJournalEntry] at h
  repeat' split at h
  all_goals injection h with h1 h2
  all_goals try cases h2
  all_goals exact h1.symm

/-- Claim C5, counterexample: posting an already-POSTED customer invoice
fails with a 400 validation error, not with a 409 Conflict as the claim
states for both kinds of document. -/
theorem nonDraft_invoice_post_is_400_not_409 :
    postCustomerInvoice storePostedInvoice 40 0 =
      (storePostedInvoice,
        Except.error (ApiError.badRequest
          "Invoice cannot be posted. Current status: POSTED. Only DRAFT invoices can be posted.")) ∧
    (ApiError.badRequest
      "Invoice cannot be posted. Current status: POSTED. Only DRAFT invoices can be posted.").statusCode = 400 ∧
    (400 : Nat) ≠ 409 := by
  refine ⟨rfl, rfl, by decide⟩

/-- Claim C5 as amended: for a journal entry whose status is not DRAFT,
post fails with a Conflict (409) error reporting the current status; for
a customer invoice whose status is not DRAFT, post fails with a
validation (400) error reporting the current status; in both cases the
store — hence the document's number, postedAt and status — is left
exactly as it was. -/
theorem nonDraft_post_rejected_without_mutation (s : Store) (id now : Nat) :
    (∀ entry, findEntry s id = some entry → entry.status ≠ EntryStatus.DRAFT →
        postJournalEntry s id now =
          (s, Except.error (ApiError.conflict
            ("Journal entry is already posted (status: " ++ entry.status.toName ++ ")")))) ∧
    (∀ invoice, findInvoice s id = some invoice → invoice.status ≠ InvoiceStatus.DRAFT →
        postCustomerInvoice s id now =
          (s, Except.error (ApiError.badRequest
            ("Invoice cannot be posted. Current status: " ++ invoice.status.toName ++
              ". Only DRAFT invoices can be posted.")))) := by
  constructor
  · intro entry hfe hst
    unfold postJournalEntry
    rw [hfe]
    simp only [if_pos hst]
  · intro invoice hfi hst
    unfold postCustomerInvoice
    rw [hfi]
    simp only [if_pos hst]

/-- Witness for the amended C5 at concrete stores holding an already
POSTED entry and an already POSTED invoice. -/
theorem nonDraft_post_rejected_without_mutation_witness :
    postJournalEntry storePostedEntry 30 0 =
      (storePostedEntry, Except.error (ApiError.conflict
        "Journal entry is already posted (status: POSTED)")) ∧
    postCustomerInvoice storePostedInvoice 40 0 =
      (storePostedInvoice, Except.error (ApiError.badRequest
        "Invoice cannot be posted. Current status: POSTED. Only DRAFT invoices can be posted.")) := by
  constructor
  · exact (nonDraft_post_rejected_without_mutation storePostedEntry 30 0).1
      { draftEntry with status := .POSTED, number := some "GEN/2026/0001" } rfl (by decide)
  · exact (nonDraft_post_rejected_without_mutation storePostedInvoice 40 0).2
      { draftInvoice with status := .POSTED, number := some "INV/2026/0001" } rfl (by decide)

/-- Claim C6: whenever a post operation fails — for either kind of
document and for any reason — the store is returned exactly as it was:
the document keeps its status and null number, no counter is
incremented, and no journal entry or lines are created. -/
theorem post_failure_no_mutation (s : Store) (id now : Nat) :
    (∀ s' err, postJournalEntry s id now = (s', Except.error err) → s' = s) ∧
    (∀ s' err, postCustomerInvoice s id now = (s', Except.error err) → s' = s) :=
  ⟨fun _ _ h => postJournalEntry_error_frame h,
   fun _ _ h => postCustomerInvoice_error_frame h⟩

/-- Witness for C6 at a concrete input: posting a nonexistent id fails
and the store is returned unchanged. -/
theorem post_failure_no_mutation_witness :
    (postJournalEntry baseStore 99 0).1 = baseStore ∧
    (postCustomerInvoice baseStore 99 0).1 = baseStore := by
  constructor
  · exact (post_failure_no_mutation baseStore 99 0).1 _
      (ApiError.notFound "Journal entry with id 99 not found") rfl
  · exact (post_failure_no_mutation baseStore 99 0).2 _
      (ApiError.notFound "Customer invoice with id 99 not found") rfl

/-- Claim C1 (evaluation at the failing input): posting the fixture
DRAFT invoice succeeds, yet the journal entry it synthesizes sits in the
result store with status POSTED and number still null — the POSTED ⇒
number-non-null invariant fails for invoice-synthesized entries. -/
theorem invoice_synth_entry_posted_without_number :
    (postCustomerInvoice baseStore 40 999).2.isOk = true ∧
    findEntry invoicePostState 100 =
      some { id := 100, companyId := 1, journalId := 21, date := ⟨2026, 2, 1⟩,
             number := none, status := .POSTED,
             memo := some "Invoice INV/2026/0001", postedAt := some 999 } ∧
    (findEntry invoicePostState 100).map JournalEntry.status = some EntryStatus.POSTED ∧
    (findEntry invoicePostState 100).map JournalEntry.number = some none :=
  ⟨rfl, rfl, rfl, rfl⟩

/-- Claim C2 (evaluation at the failing input): the successful invoice
post returns the synthesized entry with a null number, increments the
company's invoice counter, but leaves the Sales journal's nextNumber
untouched — no posted-number is allocated for the synthesized entry and
the Sales journal's counter increment is not part of the transaction. -/
theorem invoice_post_counters_and_entry_number :
    (postCustomerInvoice baseStore 40 999).2.map (fun r => r.journalEntryNumber) = Except.ok none ∧
    (postCustomerInvoice baseStore 40 999).2.map (fun r => r.invoice.number) =
      Except.ok (some "INV/2026/0001") ∧
    findJournalByCode invoicePostState 1 "SAL" = some jnlSAL ∧
    jnlSAL.nextNumber = 1 ∧
    findCompany invoicePostState 1 =
      some { id := 1, name := "Default Company", baseCurrency := "USD", invoiceNextNumber := 2 } ∧
    (findEntry invoicePostState 100).map JournalEntry.number = some none :=
  ⟨rfl, rfl, rfl, rfl, rfl, rfl⟩

/-- In a store with fresh ids, every stored journal line's entryId is
below nextId. -/
theorem freshIds_journalLines {s : Store} (h : s.freshIds = true) :
    ∀ l ∈ s.journalLines, l.entryId < s.nextId := by
  intro l hl
  unfold Store.freshIds at h
  simp only [Bool.and_eq_true, List.all_eq_true, decide_eq_true_eq] at h
  obtain ⟨⟨⟨-, h2⟩, -⟩, -⟩ := h
  exact h2 l hl

/-- Claim C3: a journal entry reaches POSTED only balanced. A successful
raw post means the persisted lines of the posted entry sum to equal
debit and credit totals; a successful invoice post means the synthesized
entry's lines in the result store balance, and the invoice's totalAmount
equals the recomputed sum of its line totals. All sums are exact
fixed-point arithmetic (integer cents). -/
theorem posted_entry_balanced (s : Store) (id now : Nat) :
    (∀ s' e, postJournalEntry s id now = (s', Except.ok e) →
        sumDebit (entryLines s' e.id) = sumCredit (entryLines s' e.id)) ∧
    (∀ s' r, s.freshIds = true → postCustomerInvoice s id now = (s', Except.ok r) →
        sumDebit (entryLines s' r.journalEntryId) = sumCredit (entryLines s' r.journalEntryId) ∧
        ∃ invoice, findInvoice s id = some invoice ∧
          invoice.totalAmount = sumLineTotal (invoiceLinesOf s id)) := by
  constructor
  · intro s' e h
    obtain ⟨entry, journal, hfe, hid, hst, hlen, hbal, hfj, he, hs'⟩ := postJournalEntry_ok_inv h
    have heid : e.id = id := by rw [he]; exact hid
    subst hs'
    rw [heid]
    exact hbal
  · intro s' r hfresh h
    obtain ⟨invoice, salesJournal, arAccount, company, hfi, hid, hst, hlen, hpos,
      hsal, har, hco, hbal, hrid, hrnum, hrinv, newEntry, hne⟩ := postCustomerInvoice_ok_inv h
    obtain ⟨hne_id, hne_st, hne_num, hne_j, hne_c, hne_d, hne_p, hs'⟩ := hne
    refine ⟨?_, invoice, hfi, hbal⟩
    subst hs'
    rw [hrid]
    have hold : (s.journalLines.filter (fun l => l.entryId == s.nextId)) = [] := by
      apply List.filter_eq_nil_iff.mpr
      intro l hl
      have := freshIds_journalLines hfresh l hl
      simp only [beq_iff_eq]
      omega
    show sumDebit (List.filter _ (s.journalLines ++ _)) = sumCredit (List.filter _ (s.journalLines ++ _))
    rw [List.filter_append, hold, List.nil_append,
      List.filter_cons_of_pos (by simp),
      List.filter_eq_self.mpr (by
        intro l hl
        obtain ⟨line, hline, rfl⟩ := List.mem_map.mp hl
        simp)]
    rw [sumDebit_cons, sumCredit_cons,
      sumDebit_map_zero _ _ (fun line => rfl),
      sumCredit_map_total _ _ (fun line => rfl)]
    show invoice.totalAmount + 0 = 0 + sumLineTotal (invoiceLinesOf s id)
    omega

/-- Witness for C3 at the concrete fixture store: both a raw entry post
and an invoice post succeed, and the posted entries balance. -/
theorem posted_entry_balanced_witness :
    sumDebit (entryLines (postJournalEntry baseStore 30 999).1 30) =
      sumCredit (entryLines (postJournalEntry baseStore 30 999).1 30) ∧
    sumDebit (entryLines invoicePostState 100) =
      sumCredit (entryLines invoicePostState 100) := by
  constructor
  · exact (posted_entry_balanced baseStore 30 999).1 _ postedEntry30 rfl
  · exact ((posted_entry_balanced baseStore 40 999).2 invoicePostState invoicePostResult rfl
      (by rfl)).1

/-- Claim C7: on success the document number is
<PREFIX>/<YEAR>/<sequence zero-padded to 4>, where PREFIX is the journal
code for entries and the literal "INV" for invoices, YEAR comes from the
document's own date field, the sequence is the scope counter's current
value, and that counter is incremented by exactly 1 in the same
transaction. -/
theorem post_number_format_and_counter (s : Store) (id now : Nat) :
    (∀ s' e entry journal,
        findEntry s id = some entry →
        findJournalById s entry.journalId = some journal →
        postJournalEntry s id now = (s', Except.ok e) →
        e.number = some (journal.code ++ "/" ++ toString entry.date.year ++ "/" ++
          padStart4 (toString journal.nextNumber)) ∧
        findJournalById s' entry.journalId =
          some { journal with nextNumber := journal.nextNumber + 1 }) ∧
    (∀ s' r invoice company,
        findInvoice s id = some invoice →
        findCompany s invoice.companyId = some company →
        postCustomerInvoice s id now = (s', Except.ok r) →
        r.invoice.number = some ("INV/" ++ toString invoice.invoiceDate.year ++ "/" ++
          padStart4 (toString company.invoiceNextNumber)) ∧
        findCompany s' invoice.companyId =
          some { company with invoiceNextNumber := company.invoiceNextNumber + 1 }) := by
  constructor
  · intro s' e entry0 journal0 hfe0 hfj0 h
    obtain ⟨entry, journal, hfe, hid, hst, hlen, hbal, hfj, he, hs'⟩ := postJournalEntry_ok_inv h
    obtain rfl : entry0 = entry := by
      rw [hfe0] at hfe
      exact Option.some_inj.mp hfe
    obtain rfl : journal0 = journal := by
      rw [hfj0] at hfj
      exact Option.some_inj.mp hfj
    constructor
    · rw [he]
      rfl
    · subst hs'
      have hjid : journal0.id = entry0.journalId := by
        have := List.find?_some hfj
        simpa using this
      unfold findJournalById at hfj ⊢
      rw [← hjid] at hfj ⊢
      exact find?_map_ite (fun j => j.id == journal0.id)
        (fun j => { j with nextNumber := j.nextNumber + 1 }) s.journals journal0 hfj
        (fun y => rfl)
  · intro s' r invoice0 company0 hfi0 hco0 h
    obtain ⟨invoice, salesJournal, arAccount, company, hfi, hid, hst, hlen, hpos,
      hsal, har, hco, hbal, hrid, hrnum, hrinv, newEntry, hne⟩ := postCustomerInvoice_ok_inv h
    obtain ⟨-, -, -, -, -, -, -, hs'⟩ := hne
    obtain rfl : invoice0 = invoice := by
      rw [hfi0] at hfi
      exact Option.some_inj.mp hfi
    obtain rfl : company0 = company := by
      rw [hco0] at hco
      exact Option.some_inj.mp hco
    constructor
    · rw [hrinv]
      rfl
    · subst hs'
      unfold findCompany at hco
      exact find?_map_ite (fun c => c.id == invoice0.companyId)
        (fun c => { c with invoiceNextNumber := c.invoiceNextNumber + 1 }) s.companies company0 hco
        (fun y => rfl)

/-- Witness for C7: the first posts in the fixture store yield
"GEN/2026/0001" and "INV/2026/0001" and advance the respective counters
from 1 to 2. -/
theorem post_number_format_and_counter_witness :
    postedEntry30.number = some "GEN/2026/0001" ∧
    findJournalById (postJournalEntry baseStore 30 999).1 20 = some { jnlGEN with nextNumber := 2 } ∧
    postedInvoice40.number = some "INV/2026/0001" ∧
    findCompany invoicePostState 1 =
      some { id := 1, name := "Default Company", baseCurrency := "USD", invoiceNextNumber := 2 } := by
  have h1 := (post_number_format_and_counter baseStore 30 999).1 _ postedEntry30
    draftEntry jnlGEN rfl rfl (by rfl)
  have h2 := (post_number_format_and_counter baseStore 40 999).2 invoicePostState invoicePostResult
    draftInvoice { id := 1, name := "Default Company", baseCurrency := "USD", invoiceNextNumber := 1 }
    rfl rfl (by rfl)
  exact ⟨h1.1, h1.2, h2.1, h2.2⟩

/-- Claim C10: a successful postJournalEntry changes only the entry's
number, status and postedAt, and the parent journal's nextNumber (by
exactly 1): every other field of the entry, all lines, and every other
row of every table are unchanged. -/
theorem postJournalEntry_frame (s : Store) (id now : Nat) :
    ∀ s' e, postJournalEntry s id now = (s', Except.ok e) →
      ∃ entry journal,
        findEntry s id = some entry ∧
        findJournalById s entry.journalId = some journal ∧
        e.id = entry.id ∧ e.companyId = entry.companyId ∧ e.journalId = entry.journalId ∧
        e.date = entry.date ∧ e.memo = entry.memo ∧
        e.status = EntryStatus.POSTED ∧ e.postedAt = some now ∧ e.number.isSome = true ∧
        s'.journalLines = s.journalLines ∧
        s'.companies = s.companies ∧
        s'.accounts = s.accounts ∧
        s'.invoices = s.invoices ∧
        s'.invoiceLines = s.invoiceLines ∧
        s'.nextId = s.nextId ∧
        s'.entries = s.entries.map (fun x => if x.id == id then e else x) ∧
        (∀ x ∈ s.entries, x.id ≠ id → x ∈ s'.entries) ∧
        s'.journals = s.journals.map (fun j =>
          if j.id == journal.id then { j with nextNumber := j.nextNumber + 1 } else j) ∧
        (∀ j ∈ s.journals, j.id ≠ journal.id → j ∈ s'.journals) := by
  intro s' e h
  obtain ⟨entry, journal, hfe, hid, hst, hlen, hbal, hfj, he, hs'⟩ := postJournalEntry_ok_inv h
  subst hs'
  refine ⟨entry, journal, hfe, hfj, by rw [he], by rw [he], by rw [he], by rw [he], by rw [he],
    by rw [he], by rw [he], by rw [he]; rfl, rfl, rfl, rfl, rfl, rfl, rfl, rfl, ?_, rfl, ?_⟩
  · intro x hx hne
    have hxid : (x.id == id) = false := by
      simp [hne]
    have : (fun y => if (y.id == id) = true then e else y) x = x := by
      simp [hxid]
    exact this ▸ List.mem_map_of_mem _ hx
  · intro j hj hne
    have hjid : (j.id == journal.id) = false := by
      simp [hne]
    have : (fun y => if (y.id == journal.id) = true
        then { y with nextNumber := y.nextNumber + 1 } else y) j = j := by
      simp [hjid]
    exact this ▸ List.mem_map_of_mem _ hj

/-- Witness for C10: at the fixture store, the post of entry 30 leaves
lines, companies, accounts, invoices, invoice lines and nextId
unchanged. -/
theorem postJournalEntry_frame_witness :
    (postJournalEntry baseStore 30 999).1.journalLines = baseStore.journalLines ∧
    (postJournalEntry baseStore 30 999).1.companies = baseStore.companies ∧
    (postJournalEntry baseStore 30 999).1.nextId = baseStore.nextId := by
  obtain ⟨entry, journal, -, -, -, -, -, -, -, -, -, -, hlines, hcompanies, -, -, -, hnext, -⟩ :=
    postJournalEntry_frame baseStore 30 999 _ postedEntry30 (by rfl)
  exact ⟨hlines, hcompanies, hnext⟩

/-- `validateLine` pushes no error exactly when `lineValid` holds; the
index only shows up inside message strings. -/
theorem validateLine_eq_nil (i : Nat) (line : JournalLineInput) :
    validateLine i line = [] ↔ lineValid line = true := by
  cases ha : line.accountCode <;> cases hd : line.debit <;> cases hc : line.credit <;>
    simp [validateLine, lineValid, ha, hd, hc, List.append_eq_nil] <;>
    try omega
  rename_i a d c
  by_cases hs : a = "" <;> simp [hs] <;> omega

/-- Every member of a list shows up in its enumeration. -/
theorem mem_enumFrom_of_mem {α : Type} {x : α} :
    ∀ (l : List α) (n : Nat), x ∈ l → ∃ i, (i, x) ∈ l.enumFrom n := by
  intro l
  induction l with
  | nil => intro n h; cases h
  | cons y ys ih =>
      intro n h
      rcases List.mem_cons.mp h with rfl | hmem
      · exact ⟨n, by simp [List.enumFrom]⟩
      · obtain ⟨i, hi⟩ := ih (n + 1) hmem
        exact ⟨i, by simp [List.enumFrom, hi]⟩

/-- If body validation reports no error then the body has at least 2
lines and every line satisfies `lineValid`. -/
theorem validateBody_nil_lines {body : CreateJournalEntryBody} {ls : List JournalLineInput}
    (h : validateJournalEntryBody body = []) (hl : body.lines = some ls) :
    2 ≤ ls.length ∧ ∀ l ∈ ls, lineValid l = true := by
  simp only [validateJournalEntryBody, hl, List.append_eq_nil] at h
  obtain ⟨-, h2, h3⟩ := h
  constructor
  · by_contra hlt
    rw [if_pos (Nat.lt_of_not_le hlt)] at h2
    exact absurd h2 (by simp)
  · intro l hmem
    obtain ⟨i, hi⟩ := mem_enumFrom_of_mem ls 0 hmem
    have hnil : validateLine i l = [] :=
      (List.flatten_eq_nil_iff).mp h3 _ (List.mem_map_of_mem _ hi)
    exact (validateLine_eq_nil i l).mp hnil

/-- If some line fails `lineValid` then body validation reports at least
one error. -/
theorem validateBody_ne_nil_of_bad {body : CreateJournalEntryBody} {ls : List JournalLineInput}
    {l : JournalLineInput} (hl : body.lines = some ls) (hmem : l ∈ ls)
    (hbad : lineValid l = false) : validateJournalEntryBody body ≠ [] := by
  intro hnil
  have := ((validateBody_nil_lines hnil hl).2 l hmem)
  rw [hbad] at this
  cases this

/-- A line with both sides positive fails `lineValid`. -/
theorem lineValid_false_of_both {l : JournalLineInput}
    (hd : 0 < l.debit.getD 0) (hc : 0 < l.credit.getD 0) : lineValid l = false := by
  simp [lineValid, hd, hc]

/-- What `lineValid` guarantees, spelled out. -/
theorem lineValid_spec {l : JournalLineInput} (h : lineValid l = true) :
    l.accountCode ≠ none ∧ l.accountCode ≠ some "" ∧
    (∃ d, l.debit = some d ∧ 0 ≤ d) ∧ (∃ c, l.credit = some c ∧ 0 ≤ c) ∧
    ¬(0 < l.debit.getD 0 ∧ 0 < l.credit.getD 0) := by
  cases ha : l.accountCode <;> cases hd : l.debit <;> cases hc : l.credit <;>
    simp [lineValid, ha, hd, hc] at h ⊢ <;>
    try omega
  all_goals (rename_i a d c; by_cases hs : a = "" <;> simp [hs] at h ⊢ <;> omega)

/-- Inversion of a successful createJournalEntry: validation reported no
error, and the body's lines field was an array. -/
theorem createJournalEntry_ok_inv {s : Store} {body : CreateJournalEntryBody}
    {s' : Store} {e : JournalEntry} (h : createJournalEntry s body = (s', Except.ok e)) :
    validateJournalEntryBody body = [] ∧ ∃ ls, body.lines = some ls := by
  simp only [createJournalEntry] at h
  split at h
  · simp at h
  · rename_i ls hl
    split at h
    · simp at h
    · rename_i hne
      exact ⟨not_not.mp hne, ls, hl⟩

/-- Claim C8, counterexample: a body whose two lines each carry debit 0
and credit 0 — so no line has "exactly one of debit/credit > 0" — is
accepted by createJournalEntry. -/
theorem zero_zero_lines_accepted :
    (createJournalEntry baseStore bodyZeroZero).2.isOk = true ∧
    bodyZeroZero.lines = some
      [ { accountCode := some "1000", label := none, debit := some 0, credit := some 0 },
        { accountCode := some "4000", label := none, debit := some 0, credit := some 0 } ] ∧
    (∀ l ∈ [ ({ accountCode := some "1000", label := none, debit := some 0, credit := some 0 } : JournalLineInput),
             { accountCode := some "4000", label := none, debit := some 0, credit := some 0 } ],
      ¬(0 < l.debit.getD 0) ∧ ¬(0 < l.credit.getD 0)) :=
  ⟨rfl, rfl, by decide⟩

/-- Claim C8 as amended: createJournalEntry accepts its line set only if
it has at least 2 lines and every line has a non-empty account code and
debit and credit given as numbers ≥ 0 with not both > 0 (a line with
debit = 0 and credit = 0 is accepted); any line with both debit > 0 and
credit > 0 is rejected with a validation error and nothing is
persisted. -/
theorem createJournalEntry_line_rules (s : Store) (body : CreateJournalEntryBody) :
    (∀ s' e, createJournalEntry s body = (s', Except.ok e) →
        ∃ ls, body.lines = some ls ∧ 2 ≤ ls.length ∧
          ∀ l ∈ ls,
            l.accountCode ≠ none ∧ l.accountCode ≠ some "" ∧
            (∃ d, l.debit = some d ∧ 0 ≤ d) ∧
            (∃ c, l.credit = some c ∧ 0 ≤ c) ∧
            ¬(0 < l.debit.getD 0 ∧ 0 < l.credit.getD 0)) ∧
    (∀ ls l, body.lines = some ls → l ∈ ls →
        0 < l.debit.getD 0 → 0 < l.credit.getD 0 →
        ∃ msg, createJournalEntry s body = (s, Except.error (ApiError.badRequest msg))) := by
  constructor
  · intro s' e h
    obtain ⟨hnil, ls, hl⟩ := createJournalEntry_ok_inv h
    obtain ⟨hlen, hall⟩ := validateBody_nil_lines hnil hl
    refine ⟨ls, hl, hlen, ?_⟩
    intro l hmem
    exact lineValid_spec (hall l hmem)
  · intro ls l hl hmem hd hc
    have hbad : lineValid l = false := lineValid_false_of_both hd hc
    have hne : validateJournalEntryBody body ≠ [] := validateBody_ne_nil_of_bad hl hmem hbad
    refine ⟨String.intercalate "; " (validateJournalEntryBody body), ?_⟩
    simp only [createJournalEntry, hl]
    rw [if_pos hne]

/-- Witness for the amended C8: the balanced fixture body is accepted
and satisfies the line conditions; the both-positive body is rejected
with a validation error, leaving the store unchanged. -/
theorem createJournalEntry_line_rules_witness :
    (∃ ls, bodyBalanced.lines = some ls ∧ 2 ≤ ls.length ∧
      ∀ l ∈ ls,
        l.accountCode ≠ none ∧ l.accountCode ≠ some "" ∧
        (∃ d, l.debit = some d ∧ 0 ≤ d) ∧
        (∃ c, l.credit = some c ∧ 0 ≤ c) ∧
        ¬(0 < l.debit.getD 0 ∧ 0 < l.credit.getD 0)) ∧
    (∃ msg, createJournalEntry baseStore bodyBothPositive =
      (baseStore, Except.error (ApiError.badRequest msg))) := by
  constructor
  · exact (createJournalEntry_line_rules baseStore bodyBalanced).1 _ _ (by rfl)
  · exact (createJournalEntry_line_rules baseStore bodyBothPositive).2
      _ { accountCode := some "1000", label := none, debit := some 100, credit := some 100 }
      rfl (by decide) (by decide) (by decide)

/-- Claim C9: the AR account is resolved exactly as the spec describes
(ordered conventional codes with first-ASSET-match-wins, then a
case-insensitive "Receivable" name search among ASSET accounts), and when
neither strategy resolves — all other post preconditions holding —
postCustomerInvoice fails with NotFound and no mutation. -/
theorem ar_resolution_follows_spec :
    (∀ s companyId, findAccountsReceivableAccount s companyId = arAccountResolutionSpec s companyId) ∧
    (∀ s id now invoice, findInvoice s id = some invoice →
        invoice.status = InvoiceStatus.DRAFT →
        invoiceLinesOf s id ≠ [] →
        0 < invoice.totalAmount →
        (findJournalByCode s invoice.companyId "SAL").isSome = true →
        findAccountsReceivableAccount s invoice.companyId = none →
        postCustomerInvoice s id now =
          (s, Except.error (ApiError.notFound
            "Accounts Receivable account not found. Please ensure an Accounts Receivable (ASSET) account is set up for this company."))) := by
  constructor
  · intro s companyId
    unfold findAccountsReceivableAccount arAccountResolutionSpec
    have hfun : (fun code => match findAccountByCode s companyId code with
        | some account => if account.type == AccountType.ASSET then some account else none
        | none => none) =
        (fun code => (findAccountByCode s companyId code).bind
          (fun a => if a.type = AccountType.ASSET then some a else none)) := by
      funext code
      cases findAccountByCode s companyId code with
      | none => rfl
      | some a => by_cases h : a.type = AccountType.ASSET <;> simp [h]
    rw [hfun]
    generalize (commonARCodes.findSome? (fun code =>
      (findAccountByCode s companyId code).bind
        (fun a => if a.type = AccountType.ASSET then some a else none))) = x
    cases x <;> rfl
  · intro s id now invoice hfi hst hlen hpos hsal har
    obtain ⟨sj, hsj⟩ := Option.isSome_iff_exists.mp hsal
    have hl0 : ¬((invoiceLinesOf s id).length = 0) := by
      simpa [List.length_eq_zero] using hlen
    have hp0 : ¬(invoice.totalAmount ≤ 0) := not_le.mpr hpos
    simp [postCustomerInvoice, hfi, hst, hsj, har, hl0, hp0]

/-- Witness for C9: in the fixture store stripped of every AR candidate,
posting the DRAFT invoice fails with the NotFound error and the store is
unchanged. -/
theorem ar_resolution_follows_spec_witness :
    postCustomerInvoice storeNoAR 40 7 =
      (storeNoAR, Except.error (ApiError.notFound
        "Accounts Receivable account not found. Please ensure an Accounts Receivable (ASSET) account is set up for this company.")) :=
  ar_resolution_follows_spec.2 storeNoAR 40 7 draftInvoice rfl rfl (by decide) (by decide) rfl rfl

end Ledger
